import Mathlib

/-!
Shallow embedding of the TCP protocol engine in `src/tcp.rs` (tcp-rs).

Machine integers (`u32`, `u16`) are modelled as `Nat` with explicit
`% 2^32` wherever the source performs wrapping arithmetic; `u32` casts
are modelled with `% 2^32`.  The TUN device is modelled by returning the
list of transmitted segments.  The `assert!` in `Tcb::on_packet` is
modelled by an `Option` result, `none` standing for the panic.
-/

namespace TcpRs

/-- The modulus `2^32` of `u32` arithmetic. -/
def U32 : Nat := 4294967296

/-- Constant `ETH_MTU` from `lib.rs`: the scratch-buffer size in bytes. -/
def ETH_MTU : Nat := 1500

/-- Record `SendSequenceVariables` from `tcp.rs` (RFC 793 send sequence
space). -/
structure SendSequenceVariables where
  una : Nat
  nxt : Nat
  wnd : Nat
  up : Bool
  wl1 : Nat
  wl2 : Nat
  iss : Nat
deriving DecidableEq, Repr

/-- Record `RecvSequenceVariables` from `tcp.rs` (RFC 793 receive
sequence space). -/
structure RecvSequenceVariables where
  nxt : Nat
  wnd : Nat
  up : Bool
  irs : Nat
deriving DecidableEq, Repr

/-- Enum `State` from `tcp.rs`. -/
inductive State where
  | SynRcvd
  | Estab
  | FinWait1
  | FinWait2
  | TimeWait
deriving DecidableEq, Repr

/-- Method `State::is_synchronised` from `tcp.rs`. -/
def State.is_synchronised : State → Bool
  | State.SynRcvd => false
  | State.Estab | State.FinWait1 | State.FinWait2 | State.TimeWait => true

/-- The fields of the cached outgoing `TcpHeader` template that the
engine reads or writes (`sequence_number`, `acknowledgment_number`,
`window_size`, and the `syn`/`ack`/`fin`/`rst` flag bits). -/
structure TcpHeaderT where
  sequence_number : Nat
  acknowledgment_number : Nat
  window_size : Nat
  syn : Bool
  ack : Bool
  fin : Bool
  rst : Bool
deriving DecidableEq, Repr

/-- Record `Tcb` from `tcp.rs`.  The cached `send_ip_header` only
carries addresses and lengths, which no claim observes, so it is
omitted. -/
structure Tcb where
  state : State
  recv : RecvSequenceVariables
  send : SendSequenceVariables
  send_tcp_header : TcpHeaderT
deriving DecidableEq, Repr

/-- The fields of an incoming parsed TCP segment that the engine reads:
`sequence_number`, `acknowledgment_number`, `window_size`, the flag bits
and the payload length (`data.len()`). -/
structure SegIn where
  seq : Nat := 0
  ackn : Nat := 0
  wnd : Nat := 0
  syn : Bool := false
  ack : Bool := false
  fin : Bool := false
  rst : Bool := false
  dataLen : Nat := 0
deriving DecidableEq, Repr

/-- One datagram handed to `nic.send`, projected to its TCP fields: the
serialised sequence/acknowledgement numbers, the flag bits as they were
at serialisation time, and the number of payload bytes written. -/
structure SegOut where
  seq : Nat
  ackn : Nat
  syn : Bool
  ack : Bool
  fin : Bool
  rst : Bool
  payloadLen : Nat
deriving DecidableEq, Repr

/-- Function `is_between_values_wrapped` from `tcp.rs`:
`start < value < end` with wrapping arithmetic.  The three branches
mirror the `match` on `start.cmp(&value)` (`Equal`, `Less`,
`Greater`). -/
def is_between_values_wrapped (value start end_ : Nat) : Bool :=
  if start = value then false
  else if start < value then
    if start ≤ end_ ∧ end_ ≤ value then false else true
  else
    if end_ > value ∧ end_ < start then true else false

/-- The segment length computed at the top of `Tcb::is_segment_valid`:
`data.len()` plus one for FIN plus one for SYN, cast `as u32`. -/
def seg_len (seg : SegIn) : Nat :=
  (seg.dataLen + (if seg.fin then 1 else 0) + (if seg.syn then 1 else 0)) % U32

/-- Method `Tcb::write` from `tcp.rs` (the segment framer).  The scratch
buffer holds `ETH_MTU` bytes; after the 20-byte IPv4 and 20-byte TCP
headers, `unwritten_bytes.write(payload)` writes
`min(payload.len(), ETH_MTU - 40)` payload bytes.  `SND.NXT` advances by
the written payload bytes, plus one for SYN and one for FIN, which are
then cleared from the template. -/
def Tcb.write (tcb : Tcb) (payloadLen : Nat) : Tcb × SegOut :=
  let hdr1 : TcpHeaderT :=
    { tcb.send_tcp_header with
      sequence_number := tcb.send.nxt
      acknowledgment_number := tcb.recv.nxt }
  let payload_bytes : Nat := min payloadLen (ETH_MTU - (20 + 20))
  let out : SegOut :=
    { seq := hdr1.sequence_number
      ackn := hdr1.acknowledgment_number
      syn := hdr1.syn
      ack := hdr1.ack
      fin := hdr1.fin
      rst := hdr1.rst
      payloadLen := payload_bytes }
  let nxt1 := (tcb.send.nxt + payload_bytes) % U32
  let nxt2 := if hdr1.syn then (nxt1 + 1) % U32 else nxt1
  let hdr2 := if hdr1.syn then { hdr1 with syn := false } else hdr1
  let nxt3 := if hdr2.fin then (nxt2 + 1) % U32 else nxt2
  let hdr3 := if hdr2.fin then { hdr2 with fin := false } else hdr2
  ({ tcb with send := { tcb.send with nxt := nxt3 }, send_tcp_header := hdr3 }, out)

/-- Method `Tcb::accept_connection` from `tcp.rs`.  Here `none` models
`Ok(None)` (no TCB created); `some (tcb, out)` models `Ok(Some(tcb))`
together with the SYN|ACK datagram transmitted by
`tcb.write(nic, &[])`. -/
def Tcb.accept_connection (seg : SegIn) : Option (Tcb × SegOut) :=
  if seg.syn = false then
    none
  else
    let iss : Nat := 0
    let wnd : Nat := 1024
    let recv : RecvSequenceVariables :=
      { irs := seg.seq
        nxt := (seg.seq + 1) % U32
        wnd := seg.wnd
        up := false }
    let send : SendSequenceVariables :=
      { iss := iss
        una := iss
        nxt := iss
        wnd := wnd
        up := false
        wl1 := 0
        wl2 := 0 }
    let hdr : TcpHeaderT :=
      { sequence_number := send.iss
        acknowledgment_number := recv.nxt
        window_size := send.wnd
        syn := true
        ack := true
        fin := false
        rst := false }
    let tcb : Tcb :=
      { state := State.SynRcvd
        recv := recv
        send := send
        send_tcp_header := hdr }
    some (Tcb.write tcb 0)

/-- Method `Tcb::is_segment_valid` from `tcp.rs`.  Returns the
acceptability verdict together with the updated TCB: the source takes
`&mut self` and unconditionally sets
`self.recv.nxt = seqn.wrapping_add(seg_len)`. -/
def Tcb.is_segment_valid (tcb : Tcb) (seg : SegIn) : Bool × Tcb :=
  let seqn := seg.seq
  let slen := seg_len seg
  let window := (tcb.recv.nxt + tcb.recv.wnd) % U32
  let is_valid : Bool :=
    if slen = 0 then
      if tcb.recv.wnd = 0 then
        decide (seqn = tcb.recv.nxt)
      else
        is_between_values_wrapped seqn ((tcb.recv.nxt + (U32 - 1)) % U32) window
    else
      if tcb.recv.wnd = 0 then
        false
      else
        is_between_values_wrapped seqn ((tcb.recv.nxt + (U32 - 1)) % U32) window ||
          is_between_values_wrapped ((seqn + (slen - 1)) % U32)
            ((tcb.recv.nxt + (U32 - 1)) % U32) window
  (is_valid, { tcb with recv := { tcb.recv with nxt := (seqn + slen) % U32 } })

/-- The tail of `Tcb::on_packet` (source lines 204-224): the
`ESTAB → transmit FIN → FIN_WAIT_1` block, the
`FIN_WAIT_1 → FIN_WAIT_2` block, and the
`FIN ∧ FIN_WAIT_2 → ACK → TIME_WAIT` block, run in that order. -/
def Tcb.on_packet_tail (tcb3 : Tcb) (seg : SegIn) : Option (Tcb × List SegOut) :=
  let s1 : Tcb × List SegOut :=
    if tcb3.state = State.Estab then
      let t := { tcb3 with send_tcp_header := { tcb3.send_tcp_header with fin := true } }
      let w := Tcb.write t 0
      ({ w.1 with state := State.FinWait1 }, [w.2])
    else (tcb3, [])
  let tcb4 := s1.1
  let tcb5 :=
    if tcb4.state = State.FinWait1 ∧ tcb4.send.una = tcb4.send.iss + 2 then
      { tcb4 with state := State.FinWait2 }
    else tcb4
  if seg.fin = true ∧ tcb5.state = State.FinWait2 then
    let w := Tcb.write tcb5 0
    some ({ w.1 with state := State.TimeWait }, s1.2 ++ [w.2])
  else
    some (tcb5, s1.2)

/-- Method `Tcb::on_packet` from `tcp.rs`.  Here `some (tcb, outs)`
models `Ok(())` with the resulting TCB and the datagrams transmitted
during the call, in order; `none` models the panic of
`assert!(data.is_empty())`. -/
def Tcb.on_packet (tcb0 : Tcb) (seg : SegIn) : Option (Tcb × List SegOut) :=
  let v := Tcb.is_segment_valid tcb0 seg
  if v.1 = false then
    let w := Tcb.write v.2 0
    some (w.1, [w.2])
  else if seg.ack = false then
    some (v.2, [])
  else
    let ackn := seg.ackn
    let tcb2 :=
      if v.2.state = State.SynRcvd then
        if is_between_values_wrapped ackn ((v.2.send.una + (U32 - 1)) % U32)
            ((v.2.send.nxt + 1) % U32) then
          { v.2 with state := State.Estab }
        else v.2
      else v.2
    if tcb2.state = State.Estab ∨ tcb2.state = State.FinWait1 ∨
        tcb2.state = State.FinWait2 then
      if is_between_values_wrapped ackn tcb2.send.una ((tcb2.send.nxt + 1) % U32) = false then
        some (tcb2, [])
      else if seg.dataLen ≠ 0 then
        none
      else
        Tcb.on_packet_tail { tcb2 with send := { tcb2.send with una := ackn } } seg
    else
      Tcb.on_packet_tail tcb2 seg

/-- Spec-side definition (spec §4.2): the RFC 793 §3.3 four-case
acceptability table, with window membership
`RCV.NXT ≤ x < RCV.NXT + RCV.WND` expressed in wrapping sequence space:
the forward distance (mod `2^32`) from `RCV.NXT` to `x` is below
`RCV.WND`. -/
def acceptable_rfc_table (rcvNxt rcvWnd seqn slen : Nat) : Bool :=
  if slen = 0 then
    if rcvWnd = 0 then decide (seqn = rcvNxt)
    else decide ((seqn + U32 - rcvNxt) % U32 < rcvWnd)
  else
    if rcvWnd = 0 then false
    else
      decide ((seqn + U32 - rcvNxt) % U32 < rcvWnd) ||
        decide (((seqn + (slen - 1)) % U32 + U32 - rcvNxt) % U32 < rcvWnd)

/-- A SYN segment with sequence number `p` and advertised window `w`. -/
def synSeg (p w : Nat) : SegIn :=
  { seq := p, wnd := w, syn := true }

/-- The peer's empty ACK completing the handshake after `synSeg p w`:
sequence `p + 1`, acknowledging our ISS + 1 = 1. -/
def ackSeg (p w : Nat) : SegIn :=
  { seq := (p + 1) % U32, ackn := 1, wnd := w, ack := true }

/-- A TCB in `ESTAB` with `SND.UNA = SND.NXT = 1`, `RCV.NXT = 1001`,
`RCV.WND = 10` (as after a handshake from a SYN with `seq = 1000` that
advertised a 10-byte window). -/
def estabTcb : Tcb :=
  { state := State.Estab
    recv := { nxt := 1001, wnd := 10, up := false, irs := 1000 }
    send := { una := 1, nxt := 1, wnd := 1024, up := false, wl1 := 0, wl2 := 0, iss := 0 }
    send_tcp_header :=
      { sequence_number := 0, acknowledgment_number := 1001, window_size := 1024
        syn := false, ack := true, fin := false, rst := false } }

/-- An out-of-window data segment for `estabTcb`: `seq = 2000` with a
4-byte payload, outside `[1001, 1011)`. -/
def oowSeg : SegIn :=
  { seq := 2000, ackn := 1, wnd := 1024, ack := true, dataLen := 4 }

/-- A TCB whose receive side sits just below the `2^32` wrap:
`RCV.NXT = 0xFFFFFFF0`, `RCV.WND = 32` (scenario S5). -/
def s5Tcb : Tcb :=
  { state := State.Estab
    recv := { nxt := 4294967280, wnd := 32, up := false, irs := 0 }
    send := { una := 1, nxt := 1, wnd := 1024, up := false, wl1 := 0, wl2 := 0, iss := 0 }
    send_tcp_header :=
      { sequence_number := 0, acknowledgment_number := 0, window_size := 1024
        syn := false, ack := true, fin := false, rst := false } }

/-- The S5 segment: `seq = 0x00000005` with a 4-byte payload. -/
def s5Seg : SegIn :=
  { seq := 5, dataLen := 4 }

/-- The TCB produced by `Tcb::accept_connection` for a SYN segment
`seg`, after the SYN|ACK has been framed and transmitted. -/
def acceptedTcb (seg : SegIn) : Tcb :=
  { state := State.SynRcvd
    recv := { irs := seg.seq, nxt := (seg.seq + 1) % U32, wnd := seg.wnd, up := false }
    send := { una := 0, nxt := 1, wnd := 1024, up := false, wl1 := 0, wl2 := 0, iss := 0 }
    send_tcp_header :=
      { sequence_number := 0, acknowledgment_number := (seg.seq + 1) % U32
        window_size := 1024, syn := false, ack := true, fin := false, rst := false } }

/-- The SYN|ACK datagram transmitted by `Tcb::accept_connection`. -/
def synAckOut (seg : SegIn) : SegOut :=
  { seq := 0, ackn := (seg.seq + 1) % U32, syn := true, ack := true, fin := false
    rst := false, payloadLen := 0 }

/-- A `SYN_RCVD` TCB as produced by `accept_connection` for a SYN with
`RCV.NXT = q`, `RCV.WND = w`, `RCV.IRS = irs0`. -/
def synRcvdTcb (q w irs0 : Nat) : Tcb :=
  { state := State.SynRcvd
    recv := { nxt := q, wnd := w, up := false, irs := irs0 }
    send := { una := 0, nxt := 1, wnd := 1024, up := false, wl1 := 0, wl2 := 0, iss := 0 }
    send_tcp_header :=
      { sequence_number := 0, acknowledgment_number := q
        window_size := 1024, syn := false, ack := true, fin := false, rst := false } }

/-- The peer's empty handshake-completing ACK: `seq = q = RCV.NXT`,
`ack = 1 = ISS + 1`. -/
def hsAckSeg (q w : Nat) : SegIn :=
  { seq := q, ackn := 1, wnd := w, ack := true }

/-- The TCB left behind by `Tcb::on_packet` after it processes the
peer's ACK completing the handshake: the engine reaches `ESTAB`,
immediately transmits a FIN and moves on to `FIN_WAIT_1`. -/
def finWait1Tcb (q w irs0 : Nat) : Tcb :=
  { state := State.FinWait1
    recv := { nxt := q, wnd := w, up := false, irs := irs0 }
    send := { una := 1, nxt := 2, wnd := 1024, up := false, wl1 := 0, wl2 := 0, iss := 0 }
    send_tcp_header :=
      { sequence_number := 1, acknowledgment_number := q
        window_size := 1024, syn := false, ack := true, fin := false, rst := false } }

/-- The FIN|ACK datagram the engine transmits while processing the
handshake-completing ACK. -/
def finOut (q : Nat) : SegOut :=
  { seq := 1, ackn := q, syn := false, ack := true, fin := true
    rst := false, payloadLen := 0 }

/-- The offending ACK of scenario S2: `seq = 501`, `ack = 9999`, with
`9999` outside `(SND.UNA, SND.NXT] = (0, 1]`. -/
def badAckSeg : SegIn :=
  { seq := 501, ackn := 9999, wnd := 64240, ack := true }

/-- The peer's bare ACK of our FIN (scenario S4): `seq = 1001`,
`ack = 2`. -/
def finAckAck : SegIn :=
  { seq := 1001, ackn := 2, wnd := 64240, ack := true }

/-- The peer's FIN (scenario S4): `seq = 1001`, `ack = 2`, FIN set. -/
def peerFinSeg : SegIn :=
  { seq := 1001, ackn := 2, wnd := 64240, ack := true, fin := true }

/-- The engine's TCB after the S1 handshake (SYN `seq = 1000`,
`win = 64240`, then the peer's ACK): the code has already transmitted
its FIN and sits in `FIN_WAIT_1`. -/
def s4_afterHandshake : Option Tcb :=
  (Tcb.accept_connection (synSeg 1000 64240)).bind fun r =>
    (Tcb.on_packet r.1 (ackSeg 1000 64240)).map fun s => s.1

/-- S4 third step: the peer's ACK `ack = 2` processed in `FIN_WAIT_1`. -/
def s4_step3 : Option (Tcb × List SegOut) :=
  s4_afterHandshake.bind fun t => Tcb.on_packet t finAckAck

/-- S4 fourth step: the peer's FIN `seq = 1001, ack = 2` processed in
`FIN_WAIT_2`. -/
def s4_step4 : Option (Tcb × List SegOut) :=
  s4_step3.bind fun s => Tcb.on_packet s.1 peerFinSeg

/-- A TCB in `FIN_WAIT_1` with `SND.UNA = 1 < SND.NXT = 2`,
`RCV.NXT = 1001`, `RCV.WND = 10`. -/
def fw1DataTcb : Tcb :=
  { state := State.FinWait1
    recv := { nxt := 1001, wnd := 10, up := false, irs := 1000 }
    send := { una := 1, nxt := 2, wnd := 1024, up := false, wl1 := 0, wl2 := 0, iss := 0 }
    send_tcp_header :=
      { sequence_number := 1, acknowledgment_number := 1001, window_size := 1024
        syn := false, ack := true, fin := false, rst := false } }

/-- An acceptable in-window segment with a 3-byte payload and an
acceptable `ack = 2` for `fw1DataTcb`. -/
def fw1DataSeg : SegIn :=
  { seq := 1001, ackn := 2, wnd := 10, ack := true, dataLen := 3 }

/-! ## Characterisation of the wrapping interval predicate -/

/-- Predicate `is_between_values_wrapped value start end_` holds exactly
when the forward distance (mod `2^32`) from `start` to `value` is
positive and strictly smaller than the forward distance from `start` to
`end_`. -/
theorem is_between_iff_dist (value start end_ : Nat)
    (hv : value < U32) (hs : start < U32) (he : end_ < U32) :
    is_between_values_wrapped value start end_ = true ↔
      (0 < (value + U32 - start) % U32 ∧
        (value + U32 - start) % U32 < (end_ + U32 - start) % U32) := by
  unfold is_between_values_wrapped
  simp only [U32] at hv hs he ⊢
  split_ifs with h1 h2 h3 h4 <;> simp <;> omega

/-- The receive-window test used by `Tcb::is_segment_valid`:
membership of `[RCV.NXT, RCV.NXT + RCV.WND)` realised as the open
interval `(RCV.NXT - 1, RCV.NXT + RCV.WND)`. -/
theorem is_between_window_eq (seqv nxt wnd : Nat)
    (h1 : seqv < U32) (h2 : nxt < U32) (h3 : 0 < wnd) (h4 : wnd < 65536) :
    is_between_values_wrapped seqv ((nxt + (U32 - 1)) % U32) ((nxt + wnd) % U32) =
      decide ((seqv + U32 - nxt) % U32 < wnd) := by
  have hpos : 0 < U32 := by simp only [U32]; omega
  have hiff := is_between_iff_dist seqv ((nxt + (U32 - 1)) % U32) ((nxt + wnd) % U32)
    h1 (Nat.mod_lt _ hpos) (Nat.mod_lt _ hpos)
  rw [Bool.eq_iff_iff, hiff]
  simp only [decide_eq_true_eq, U32] at h1 h2 h3 h4 ⊢
  omega

/-- C2: the wrapping open-interval predicate is correct: for every `v`
and `a`, `is_between_values_wrapped v a a = false`; for `a, k, n < 2^32`,
`is_between_values_wrapped ((a + k) % 2^32) a ((a + n) % 2^32)` holds iff
`0 < k < n`; and `is_between_values_wrapped 0 0xFFFFFFFF 1 = true`.
(Totality on all `u32` inputs is inherent: the predicate is a total
function of its three arguments.) -/
theorem in_open_interval_spec :
    (∀ v a : Nat, is_between_values_wrapped v a a = false) ∧
    (∀ a k n : Nat, a < U32 → k < U32 → n < U32 →
      (is_between_values_wrapped ((a + k) % U32) a ((a + n) % U32) = true ↔
        0 < k ∧ k < n)) ∧
    is_between_values_wrapped 0 4294967295 1 = true := by
  refine ⟨?_, ?_, by decide⟩
  · intro v a
    unfold is_between_values_wrapped
    split_ifs <;> first | rfl | omega
  · intro a k n ha hk hn
    have hpos : 0 < U32 := by simp only [U32]; omega
    rw [is_between_iff_dist _ _ _ (Nat.mod_lt _ hpos) ha (Nat.mod_lt _ hpos)]
    simp only [U32] at ha hk hn ⊢
    omega

/-- Witness for `in_open_interval_spec` at `a = 4294967290`, `k = 3`,
`n = 9`. -/
theorem in_open_interval_spec_witness :
    is_between_values_wrapped ((4294967290 + 3) % U32) 4294967290
        ((4294967290 + 9) % U32) = true ↔ 0 < 3 ∧ 3 < 9 :=
  in_open_interval_spec.2.1 4294967290 3 9 (by decide) (by decide) (by decide)

/-- C3: `Tcb::is_segment_valid` decides acceptability exactly by the
RFC 793 four-case table with `seg_len = payload_len + SYN + FIN`, and in
particular (S5) for `RCV.NXT = 0xFFFFFFF0`, `RCV.WND = 32`, a 4-byte
segment at `SEQ = 5` is acceptable and `RCV.NXT` advances to `9`. -/
theorem segment_acceptability_rfc :
    (∀ (tcb : Tcb) (seg : SegIn), tcb.recv.nxt < U32 → tcb.recv.wnd < 65536 →
      seg.seq < U32 →
      (Tcb.is_segment_valid tcb seg).1 =
        acceptable_rfc_table tcb.recv.nxt tcb.recv.wnd seg.seq (seg_len seg)) ∧
    ((Tcb.is_segment_valid s5Tcb s5Seg).1 = true ∧
      (Tcb.is_segment_valid s5Tcb s5Seg).2.recv.nxt = 9) := by
  constructor
  · intro tcb seg hn hw hs
    have hpos : 0 < U32 := by simp only [U32]; omega
    simp only [Tcb.is_segment_valid, acceptable_rfc_table]
    split_ifs with h0 hw0 hw0
    · rfl
    · exact is_between_window_eq _ _ _ hs hn (Nat.pos_of_ne_zero hw0) hw
    · rfl
    · rw [is_between_window_eq _ _ _ hs hn (Nat.pos_of_ne_zero hw0) hw,
        is_between_window_eq _ _ _ (Nat.mod_lt _ hpos) hn (Nat.pos_of_ne_zero hw0) hw]
  · exact ⟨by decide, by decide⟩

/-- Witness for `segment_acceptability_rfc` at `estabTcb` and
`oowSeg`. -/
theorem segment_acceptability_rfc_witness :
    (Tcb.is_segment_valid estabTcb oowSeg).1 =
      acceptable_rfc_table estabTcb.recv.nxt estabTcb.recv.wnd oowSeg.seq
        (seg_len oowSeg) :=
  segment_acceptability_rfc.1 estabTcb oowSeg (by decide) (by decide) (by decide)

/-- C7: across a single transmission by `Tcb::write`, `SND.NXT`
increases by exactly the written payload length plus one if the SYN flag
was set plus one if the FIN flag was set, modulo `2^32`; the transmitted
datagram carries the template's SYN/FIN flags, and both flags are
cleared from the cached template afterwards. -/
theorem write_snd_nxt_advance (tcb : Tcb) (payloadLen : Nat) :
    (Tcb.write tcb payloadLen).1.send.nxt =
      (tcb.send.nxt + min payloadLen (ETH_MTU - (20 + 20))
        + (if tcb.send_tcp_header.syn then 1 else 0)
        + (if tcb.send_tcp_header.fin then 1 else 0)) % U32 ∧
    (Tcb.write tcb payloadLen).1.send_tcp_header.syn = false ∧
    (Tcb.write tcb payloadLen).1.send_tcp_header.fin = false ∧
    (Tcb.write tcb payloadLen).2.payloadLen = min payloadLen (ETH_MTU - (20 + 20)) ∧
    (Tcb.write tcb payloadLen).2.syn = tcb.send_tcp_header.syn ∧
    (Tcb.write tcb payloadLen).2.fin = tcb.send_tcp_header.fin := by
  cases hs : tcb.send_tcp_header.syn <;> cases hf : tcb.send_tcp_header.fin <;>
    refine ⟨?_, ?_, ?_, ?_, ?_, ?_⟩ <;>
      simp only [Tcb.write, hs, hf, if_true, if_false, Bool.false_eq_true, ite_true,
        ite_false, ite_self] <;>
      first
        | rfl
        | (simp only [U32, ETH_MTU]; omega)

/-- Closed form of `Tcb::accept_connection` on a SYN segment. -/
theorem accept_connection_eq (seg : SegIn) (h : seg.syn = true) :
    Tcb.accept_connection seg = some (acceptedTcb seg, synAckOut seg) := by
  simp only [Tcb.accept_connection, h, Bool.true_eq_false, if_false, Tcb.write,
    acceptedTcb, synAckOut]
  norm_num [U32, ETH_MTU]

/-- C9: `Tcb::accept_connection` creates no TCB for a segment without
SYN; for a SYN it returns a TCB in `SYN_RCVD` with `RCV.IRS = SEG.SEQ`,
`RCV.NXT = SEG.SEQ + 1 (mod 2^32)`, `RCV.WND = SEG.WND`,
`SND.UNA = ISS`, and — after the SYN|ACK it transmits —
`SND.NXT = ISS + 1`. -/
theorem accept_connection_spec (seg : SegIn) :
    (seg.syn = false → Tcb.accept_connection seg = none) ∧
    (seg.syn = true →
      ∃ t o, Tcb.accept_connection seg = some (t, o) ∧
        t.state = State.SynRcvd ∧
        t.recv.irs = seg.seq ∧
        t.recv.nxt = (seg.seq + 1) % U32 ∧
        t.recv.wnd = seg.wnd ∧
        t.send.iss = 0 ∧
        t.send.una = t.send.iss ∧
        t.send.nxt = t.send.iss + 1 ∧
        o.syn = true ∧ o.ack = true ∧ o.payloadLen = 0) := by
  constructor
  · intro h
    simp [Tcb.accept_connection, h]
  · intro h
    exact ⟨acceptedTcb seg, synAckOut seg, accept_connection_eq seg h,
      rfl, rfl, rfl, rfl, rfl, rfl, rfl, rfl, rfl, rfl⟩

/-- Witness for `accept_connection_spec`: a plain ACK segment to an
unknown key creates no TCB, and the SYN of scenario S1 (`seq = 1000`,
`win = 64240`) creates a `SYN_RCVD` TCB with `RCV.NXT = 1001`. -/
theorem accept_connection_spec_witness :
    Tcb.accept_connection { seq := 42, ackn := 7, ack := true } = none ∧
    (∃ t o, Tcb.accept_connection (synSeg 1000 64240) = some (t, o) ∧
      t.state = State.SynRcvd ∧
      t.recv.irs = (synSeg 1000 64240).seq ∧
      t.recv.nxt = ((synSeg 1000 64240).seq + 1) % U32 ∧
      t.recv.wnd = (synSeg 1000 64240).wnd ∧
      t.send.iss = 0 ∧
      t.send.una = t.send.iss ∧
      t.send.nxt = t.send.iss + 1 ∧
      o.syn = true ∧ o.ack = true ∧ o.payloadLen = 0) :=
  ⟨(accept_connection_spec { seq := 42, ackn := 7, ack := true }).1 rfl,
    (accept_connection_spec (synSeg 1000 64240)).2 rfl⟩

set_option maxRecDepth 8000 in
/-- Closed form of `Tcb::on_packet` on the handshake-completing ACK. -/
theorem on_packet_synrcvd_ack (q w irs0 : Nat) (hq : q < U32) (hw0 : 0 < w)
    (hw : w < 65536) :
    Tcb.on_packet (synRcvdTcb q w irs0) (hsAckSeg q w) =
      some (finWait1Tcb q w irs0, [finOut q]) := by
  have hpos : 0 < U32 := by simp only [U32]; omega
  have hval : is_between_values_wrapped q ((q + (U32 - 1)) % U32)
      ((q + w) % U32) = true := by
    rw [is_between_window_eq _ _ _ hq hq hw0 hw]
    simp only [decide_eq_true_eq, U32] at hq hw hw0 ⊢
    omega
  have e0 : (q + 0) % U32 = q := by
    rw [Nat.add_zero, Nat.mod_eq_of_lt hq]
  have hseg : Tcb.is_segment_valid (synRcvdTcb q w irs0) (hsAckSeg q w) =
      (true, synRcvdTcb q w irs0) := by
    unfold Tcb.is_segment_valid
    simp only [synRcvdTcb, hsAckSeg, seg_len]
    simp [hval, Nat.mod_eq_of_lt hq]
  unfold Tcb.on_packet
  rw [hseg]
  simp only [synRcvdTcb, hsAckSeg]
  simp [is_between_values_wrapped, U32]
  simp [Tcb.on_packet_tail, Tcb.write, finWait1Tcb, finOut, U32, ETH_MTU]

/-- C1 counterexample: at the S1 values (SYN `seq = 1000`,
`win = 64240`, then the peer's acceptable empty ACK `seq = 1001`,
`ack = 1`), processing the final ACK leaves the TCB in `FIN_WAIT_1` —
not `ESTAB` — and transmits one datagram (the engine's FIN) rather than
none. -/
theorem handshake_final_ack_counterexample :
    ((Tcb.accept_connection (synSeg 1000 64240)).map fun r =>
      (Tcb.on_packet r.1 (ackSeg 1000 64240)).map fun s =>
        (s.1.state, s.2.length)) = some (some (State.FinWait1, 1)) ∧
    State.FinWait1 ≠ State.Estab :=
  ⟨by decide, by decide⟩

/-- C1 (amended): starting from no TCB, after `accept_connection`
processes a SYN with sequence number `p` (emitting the SYN|ACK) and
`on_packet` then processes the peer's acceptable empty ACK of that SYN,
the TCB has `SND.UNA = ISS + 1 = 1` and `RCV.NXT = p + 1 (mod 2^32)`,
but it is in state `FIN_WAIT_1`, not `ESTAB`, and exactly one datagram —
a FIN|ACK with `seq = ISS + 1`, `ack = p + 1` — is transmitted while
processing that final ACK, because the engine immediately initiates an
active close upon reaching `ESTAB`. -/
theorem handshake_final_ack_amended (p w : Nat) (hw0 : 0 < w)
    (hw : w < 65536) :
    ∃ t1 o1 t2 o2,
      Tcb.accept_connection (synSeg p w) = some (t1, o1) ∧
      Tcb.on_packet t1 (ackSeg p w) = some (t2, [o2]) ∧
      t2.state = State.FinWait1 ∧
      t2.send.una = 1 ∧
      t2.recv.nxt = (p + 1) % U32 ∧
      o2.fin = true ∧ o2.ack = true ∧ o2.seq = 1 ∧ o2.ackn = (p + 1) % U32 ∧
      o2.payloadLen = 0 := by
  have hpos : 0 < U32 := by simp only [U32]; omega
  refine ⟨acceptedTcb (synSeg p w), synAckOut (synSeg p w),
    finWait1Tcb ((p + 1) % U32) w p, finOut ((p + 1) % U32),
    accept_connection_eq _ rfl, ?_, rfl, rfl, rfl, rfl, rfl, rfl, rfl, rfl⟩
  exact on_packet_synrcvd_ack ((p + 1) % U32) w p (Nat.mod_lt _ hpos) hw0 hw

/-- Witness for `handshake_final_ack_amended` at `p = 1000`,
`w = 64240`. -/
theorem handshake_final_ack_amended_witness :
    ∃ t1 o1 t2 o2,
      Tcb.accept_connection (synSeg 1000 64240) = some (t1, o1) ∧
      Tcb.on_packet t1 (ackSeg 1000 64240) = some (t2, [o2]) ∧
      t2.state = State.FinWait1 ∧
      t2.send.una = 1 ∧
      t2.recv.nxt = (1000 + 1) % U32 ∧
      o2.fin = true ∧ o2.ack = true ∧ o2.seq = 1 ∧ o2.ackn = (1000 + 1) % U32 ∧
      o2.payloadLen = 0 :=
  handshake_final_ack_amended 1000 64240 (by decide) (by decide)

/-- C4 evaluated at the failing input: the TCB created from a SYN with
`seq = 500`, on receiving an ACK with unacceptable acknowledgement
number `9999`, transmits nothing at all — in particular no RST — and
stays in `SYN_RCVD` with `SND.NXT = 1` unchanged (the rejecting branch
of `on_packet` holds only a `TODO: reset` comment and `send_rst` is
never called). -/
theorem syn_rcvd_bad_ack_no_rst :
    ((Tcb.accept_connection (synSeg 500 64240)).map fun r =>
      (Tcb.on_packet r.1 badAckSeg).map fun s =>
        (s.1.state, s.2, s.1.send.nxt)) =
      some (some (State.SynRcvd, ([] : List SegOut), 1)) := by
  decide

/-- C5 evaluated at the failing input: `estabTcb` (in `ESTAB`, with
`SND.NXT = 1` and `RCV.NXT = 1001` before arrival) processing the
out-of-window segment `oowSeg` (`seq = 2000`, 4-byte payload) does emit
exactly one empty non-RST segment with `SEQ = SND.NXT = 1`, but its
acknowledgement number is `2004 = SEG.SEQ + seg_len` — the mutated
`RCV.NXT` — not the pre-arrival value `1001`, and the TCB's `RCV.NXT`
is left changed to `2004`. -/
theorem invalid_segment_ack_mutated :
    ((Tcb.on_packet estabTcb oowSeg).map fun s => (s.1.state, s.1.recv.nxt)) =
      some (State.Estab, 2004) ∧
    ((Tcb.on_packet estabTcb oowSeg).map fun s =>
      s.2.map fun o => (o.seq, o.ackn, o.payloadLen, o.rst)) =
      some [(1, 2004, 0, false)] ∧
    estabTcb.recv.nxt = 1001 :=
  ⟨by decide, by decide, by decide⟩

/-- C6 evaluated at the failing input: `Tcb::is_segment_valid` rejects
`oowSeg` (`seq = 2000`, 4 bytes, window `[1001, 1011)`), yet still
advances `RCV.NXT` from `1001` to `2004 = SEG.SEQ + seg_len`. -/
theorem rcv_nxt_advances_on_reject :
    (Tcb.is_segment_valid estabTcb oowSeg).1 = false ∧
    (Tcb.is_segment_valid estabTcb oowSeg).2.recv.nxt = 2004 ∧
    estabTcb.recv.nxt = 1001 :=
  ⟨by decide, by decide, by decide⟩

/-- C8 counterexample: in the S4 trace, the `on_packet` call in
`FIN_WAIT_2` carrying the peer's FIN (`seq = 1001`, `ack = 2`)
transmits nothing and leaves the TCB in `FIN_WAIT_2` — not `TIME_WAIT`,
and no ACK with `seq = 2, ack = 1002` is sent. -/
theorem active_close_counterexample :
    (s4_step4.map fun s => (s.1.state, s.2.length)) =
      some (State.FinWait2, 0) ∧
    State.FinWait2 ≠ State.TimeWait :=
  ⟨by decide, by decide⟩

/-- C8 (amended): in the active-close sequence after the handshake, the
acceptable ACK of the FIN (`ack = 2`, making `SND.UNA = ISS + 2`) moves
the TCB from `FIN_WAIT_1` to `FIN_WAIT_2` without transmitting — as
claimed — but the subsequent `on_packet` call in `FIN_WAIT_2` carrying
the peer's FIN (`seq = 1001`, `ack = 2`) is dropped by the
ACK-acceptability check (its `ack = 2` equals `SND.UNA`, so it lies
outside the open interval): nothing is transmitted and the TCB stays in
`FIN_WAIT_2`, with `RCV.NXT` nevertheless advanced to `1002` by the
acceptability routine. -/
theorem active_close_amended :
    (s4_step3.map fun s => (s.1.state, s.2.length, s.1.send.una)) =
      some (State.FinWait2, 0, 2) ∧
    (s4_step4.map fun s => (s.1.state, s.2.length, s.1.recv.nxt)) =
      some (State.FinWait2, 0, 1002) :=
  ⟨by decide, by decide⟩

/-- C10: for every TCB in `ESTAB`, `FIN_WAIT_1` or `FIN_WAIT_2`, a
segment that passes the segment-acceptability test, carries an
acceptable acknowledgement number, and has a non-empty payload reaches
`assert!(data.is_empty())` and panics (modelled by `none`) instead of
returning a result. -/
theorem on_packet_assert_panics (tcb : Tcb) (seg : SegIn)
    (hstate : tcb.state = State.Estab ∨ tcb.state = State.FinWait1 ∨
      tcb.state = State.FinWait2)
    (hvalid : (Tcb.is_segment_valid tcb seg).1 = true)
    (hack : seg.ack = true)
    (hackn : is_between_values_wrapped seg.ackn tcb.send.una
      ((tcb.send.nxt + 1) % U32) = true)
    (hdata : seg.dataLen ≠ 0) :
    Tcb.on_packet tcb seg = none := by
  have hst : (Tcb.is_segment_valid tcb seg).2.state = tcb.state := rfl
  have hsend : (Tcb.is_segment_valid tcb seg).2.send = tcb.send := rfl
  unfold Tcb.on_packet
  rcases hstate with h | h | h <;>
    simp [hvalid, hack, hackn, hdata, hst, hsend, h]

/-- Witness for `on_packet_assert_panics` at `fw1DataTcb` and
`fw1DataSeg`. -/
theorem on_packet_assert_panics_witness :
    (fw1DataTcb.state = State.Estab ∨ fw1DataTcb.state = State.FinWait1 ∨
      fw1DataTcb.state = State.FinWait2) ∧
    (Tcb.is_segment_valid fw1DataTcb fw1DataSeg).1 = true ∧
    fw1DataSeg.ack = true ∧
    is_between_values_wrapped fw1DataSeg.ackn fw1DataTcb.send.una
      ((fw1DataTcb.send.nxt + 1) % U32) = true ∧
    fw1DataSeg.dataLen ≠ 0 ∧
    Tcb.on_packet fw1DataTcb fw1DataSeg = none :=
  ⟨by decide, by decide, rfl, by decide, by decide,
    on_packet_assert_panics fw1DataTcb fw1DataSeg (by decide) (by decide) rfl
      (by decide) (by decide)⟩

end TcpRs
